import Mathlib

/-
Verification of the DirectorV2 design-token configuration layer.

The repository consists of tailwind.config.js together with the token
modules it imports: tailwind/theme.js (fontFamily, fontSize, borderRadius,
borderWidth, boxShadow, variants), tailwind/safelist.js (safelist),
tailwind/colors.js (colors) and tailwind/spacing.js (spacing, minWidth,
maxWidth).  The configuration values are embedded below as a small
JSON-like value type; the exported record (the result of composition) is
the function `compose`.
-/

namespace DirectorV2

/-- Values occurring in the configuration record: string literals, booleans,
arrays, objects (ordered field lists), and plugin callbacks.  A plugin
callback is represented by the list of component records it passes to the
addComponents capability it receives. -/
inductive JValue : Type where
  | str : String → JValue
  | bool : Bool → JValue
  | arr : List JValue → JValue
  | obj : List (String × JValue) → JValue
  | callback : List JValue → JValue

/-- Look up a field in an object's field list (first occurrence; all tables
in this repository use internally unique keys). -/
def lookupField (fields : List (String × JValue)) (k : String) : Option JValue :=
  match fields with
  | [] => none
  | (k₀, v) :: rest => if k₀ = k then some v else lookupField rest k

/-- Field access on a value: defined on objects, `none` otherwise. -/
def getField (v : JValue) (k : String) : Option JValue :=
  match v with
  | .obj fields => lookupField fields k
  | _ => none

/-- Follow a path of field names through nested objects. -/
def getPath (v : JValue) (path : List String) : Option JValue :=
  match path with
  | [] => some v
  | k :: ks =>
    match getField v k with
    | some w => getPath w ks
    | none => none

/-- The names of the top-level fields of an object value. -/
def topFields (v : JValue) : List String :=
  match v with
  | .obj fields => fields.map Prod.fst
  | _ => []

/-- tailwind/theme.js: the fontFamily table. -/
def fontFamily : List (String × JValue) :=
  [("primary", .str "Inter"),
   ("secondary", .str "Gilroy"),
   ("curgloria", .str "Gloria Hallelujah")]

/-- tailwind/theme.js: the fontSize table.  Each value is either a
[size, line-height] pair or, for overline, a [size, metadata] pair. -/
def fontSize : List (String × JValue) :=
  [("small", .arr [.str "8px", .str "12px"]),
   ("overline", .arr [.str "10px",
      .obj [("lineHeight", .str "16px"),
            ("letterSpacing", .str "0.04em"),
            ("textTransform", .str "uppercase")]]),
   ("captionsm", .arr [.str "10px", .str "12px"]),
   ("caption2", .arr [.str "10px", .str "16px"]),
   ("caption18", .arr [.str "10px", .str "20px"]),
   ("caption15", .arr [.str "12px", .str "14px"]),
   ("caption1", .arr [.str "12px", .str "20px"]),
   ("caption3", .arr [.str "11px", .str "16px"]),
   ("body", .arr [.str "14px", .str "24px"]),
   ("subheader", .arr [.str "16px", .str "24px"]),
   ("subheader2", .arr [.str "18px", .str "20px"]),
   ("title", .arr [.str "20px", .str "28px"]),
   ("heading2", .arr [.str "24px", .str "36px"]),
   ("heading1", .arr [.str "28px", .str "40px"]),
   ("display6", .arr [.str "30px", .str "35px"]),
   ("display5", .arr [.str "36px", .str "48px"]),
   ("display4", .arr [.str "48px", .str "56px"]),
   ("display3", .arr [.str "56px", .str "64px"]),
   ("display2", .arr [.str "64px", .str "72px"]),
   ("display1", .arr [.str "80px", .str "88px"])]

/-- tailwind/theme.js: the borderRadius table (numeric keys become string
keys, per object-key semantics of the source language). -/
def borderRadius : List (String × JValue) :=
  [("2", .str "2px"), ("4", .str "4px"), ("6", .str "6px"), ("8", .str "8px"),
   ("12", .str "12px"), ("16", .str "16px"), ("20", .str "20px"), ("24", .str "24px")]

/-- tailwind/theme.js: the borderWidth table. -/
def borderWidth : List (String × JValue) :=
  [("DEFAULT", .str "1px"), ("0", .str "0"), ("2", .str "2px"), ("3", .str "3px"),
   ("4", .str "4px"), ("6", .str "6px"), ("7", .str "7px"), ("8", .str "8px")]

/-- tailwind/theme.js: the boxShadow table, including the searchbox entry
with its non-standard unit suffixes, kept verbatim. -/
def boxShadow : List (String × JValue) :=
  [("none", .str "none"),
   ("1", .str "0px 1px 1px rgba(0, 0, 0, 0.1)"),
   ("2", .str "0px 3px 3px rgba(0, 0, 0, 0.1)"),
   ("3", .str "0px 6px 6px rgba(0, 0, 0, 0.08)"),
   ("4", .str "0px 16px 16px rgba(0, 0, 0, 0.1)"),
   ("5", .str "0px 32px 40px rgba(0, 0, 0, 0.1)"),
   ("spextlg", .str "0px 5px 20px 1px rgba(0, 2, 40, 0.1)"),
   ("searchbox", .str "0px 4px 18x 0.5x rgba(0, 2, 40, 0.1)"),
   ("up2", .str "0px -3px 3px rgba(0, 0, 0, 0.08)"),
   ("key", .str "0px 4px 16px rgba(0, 2, 40, 0.35)"),
   ("lg", .str "0px 5px 20px 1px #DBE0E9"),
   ("blur", .str "0px 0px 6px rgba(0,0,0,0.1)"),
   ("minimal-up", .str "0px -1px 5px rgba(0, 0, 0, 0.1)"),
   ("minimal-down", .str "0px 1px 5px rgba(0, 0, 0, 0.1)")]

/-- tailwind/theme.js: the extension bag inside the variants table, mapping
CSS property names to the extra state modifiers enabled for them. -/
def variantExtensions : List (String × JValue) :=
  [("cursor", .arr [.str "disabled"]),
   ("opacity", .arr [.str "group-hover"]),
   ("backgroundColor", .arr [.str "group-hover"]),
   ("background", .arr [.str "group-hover", .str "active"]),
   ("display", .arr [.str "group-hover"]),
   ("border", .arr [.str "group-hover", .str "active"]),
   ("margin", .arr [.str "group-hover"]),
   ("padding", .arr [.str "group-hover"]),
   ("height", .arr [.str "group-hover"]),
   ("width", .arr [.str "group-hover"]),
   ("transform", .arr [.str "group-hover"]),
   ("scale", .arr [.str "group-hover"]),
   ("rotate", .arr [.str "group-hover"]),
   ("translate", .arr [.str "group-hover"]),
   ("skew", .arr [.str "group-hover"]),
   ("transitionProperty", .arr [.str "group-hover"]),
   ("transitionDuration", .arr [.str "group-hover"]),
   ("transitionTimingFunction", .arr [.str "group-hover"]),
   ("transitionDelay", .arr [.str "group-hover"])]

/-- tailwind/theme.js: the variants table, a single extend field holding the
variant extensions. -/
def variants : List (String × JValue) :=
  [("extend", .obj variantExtensions)]

/-- tailwind/safelist.js: the safelist, an ordered array of literal class
names (the duplicate entry at index 13 is kept, as in the source). -/
def safelist : List String :=
  ["my-auto",
   "text-others-doctormanhattan",
   "text-others-superman",
   "text-kilvish",
   "text-red",
   "group-hover:border-kilvish-600",
   "group-hover:bg-others-superman100",
   "group-hover:border-others-superman",
   "group-hover:bg-kilvish-100",
   "group-hover:border-kilvish",
   "group-hover:bg-red-100",
   "group-hover:border-red",
   "group-hover:border-kilvish-600",
   "group-hover:border-others-doctormanhattan",
   "group-hover:bg-others-doctormanhattan-100",
   "max-h-288",
   "max-h-182"]

/-- tailwind.config.js lines 32-55: the components record the plugin
callback registers, a single responsive .container rule. -/
def containerComponents : JValue :=
  .obj [(".container",
    .obj [("maxWidth", .str "100%"),
          ("paddingLeft", .str "20px"),
          ("paddingRight", .str "20px"),
          ("marginLeft", .str "auto"),
          ("marginRight", .str "auto"),
          ("@screen sm", .obj [("maxWidth", .str "600px")]),
          ("@screen md", .obj [("maxWidth", .str "700px")]),
          ("@screen lg", .obj [("maxWidth", .str "1280px"),
                               ("paddingLeft", .str "56px"),
                               ("paddingRight", .str "56px")]),
          ("@screen xl", .obj [("maxWidth", .str "1344px")])])]

/-- tailwind.config.js lines 31-56: the plugin callback.  It receives an
addComponents capability and calls it exactly once, on
containerComponents; the result collects the records passed to
addComponents, so the callback's emission trace is observable. -/
def pluginCallback (addComponents : JValue → List JValue) : List JValue :=
  addComponents containerComponents

/-- Modelled from the spec: the modules tailwind/colors.js and
tailwind/spacing.js (the tables colors, spacing, minWidth and maxWidth)
are imported by tailwind.config.js but are not among the sources.  The
spec describes them only as static token tables, so the composition below
takes them as parameters ranging over arbitrary values. -/
def TokenTable : Type := List (String × JValue)

/-- tailwind.config.js lines 7-58: the exported configuration record, as a
function of the four token tables whose modules are outside the sources.
Field order and nesting follow the source exactly. -/
def compose (colors spacing minWidth maxWidth : JValue) : JValue :=
  .obj [
    ("content", .arr [.str "./src/**/*.\x7bhtml,js,vue, ts\x7d"]),
    ("options", .obj [("safelist", .arr (safelist.map .str))]),
    ("enabled", .bool true),
    ("theme", .obj [
      ("fontFamily", .obj fontFamily),
      ("minWidth", minWidth),
      ("maxWidth", maxWidth),
      ("boxShadow", .obj boxShadow),
      ("extend", .obj [
        ("fontSize", .obj fontSize),
        ("spacing", spacing),
        ("borderRadius", .obj borderRadius),
        ("borderWidth", .obj borderWidth),
        ("colors", colors)])]),
    ("variants", .obj variants),
    ("corePlugins", .obj [("container", .bool false)]),
    ("plugins", .arr [.callback (pluginCallback (fun v => [v]))])]

/-- A concrete empty object, used to instantiate the parameter tables when a
closed statement is needed. -/
def emptyObj : JValue := .obj []

/-- A key found in a field table is found through a one-step path on the
corresponding object. -/
theorem getPath_obj_single (fields : List (String × JValue)) (k : String) (v : JValue)
    (h : lookupField fields k = some v) : getPath (JValue.obj fields) [k] = some v := by
  simp [getPath, getField, h]

/-- Claim C1, counterexample: fontFamily is not a top-level field of the
exported record (it sits under theme), so not every one of the thirteen
schema names is a top-level field. -/
theorem fontFamily_not_top_level :
    "fontFamily" ∉ topFields (compose emptyObj emptyObj emptyObj emptyObj) := by
  decide

/-- Claim C1, amended: the top-level fields of the exported record are
exactly content, options, enabled, theme, variants, corePlugins, plugins;
each of the thirteen schema names is a field of the record at its nesting
place: variants, corePlugins and plugins at top level, fontFamily,
minWidth, maxWidth and boxShadow under theme, fontSize, spacing,
borderRadius, borderWidth and colors under theme.extend, and safelist
under options. -/
theorem schema_fields_locations (c s mw mx : JValue) :
    topFields (compose c s mw mx)
      = ["content", "options", "enabled", "theme", "variants", "corePlugins", "plugins"] ∧
    getPath (compose c s mw mx) ["theme", "fontFamily"] = some (.obj fontFamily) ∧
    getPath (compose c s mw mx) ["theme", "extend", "fontSize"] = some (.obj fontSize) ∧
    getPath (compose c s mw mx) ["theme", "extend", "spacing"] = some s ∧
    getPath (compose c s mw mx) ["theme", "minWidth"] = some mw ∧
    getPath (compose c s mw mx) ["theme", "maxWidth"] = some mx ∧
    getPath (compose c s mw mx) ["theme", "extend", "borderRadius"] = some (.obj borderRadius) ∧
    getPath (compose c s mw mx) ["theme", "extend", "borderWidth"] = some (.obj borderWidth) ∧
    getPath (compose c s mw mx) ["theme", "boxShadow"] = some (.obj boxShadow) ∧
    getPath (compose c s mw mx) ["theme", "extend", "colors"] = some c ∧
    getPath (compose c s mw mx) ["variants"] = some (.obj variants) ∧
    getPath (compose c s mw mx) ["options", "safelist"]
      = some (.arr (safelist.map JValue.str)) ∧
    getPath (compose c s mw mx) ["corePlugins"]
      = some (.obj [("container", .bool false)]) ∧
    getPath (compose c s mw mx) ["plugins"]
      = some (.arr [.callback [containerComponents]]) :=
  ⟨rfl, rfl, rfl, rfl, rfl, rfl, rfl, rfl, rfl, rfl, rfl, rfl, rfl, rfl⟩

/-- Claim C2: the composed record carries fontFamily, fontSize,
borderRadius, borderWidth, boxShadow, the variant extensions and the
safelist, each structurally equal to its source table, together with the
nested extension bag theme.extend holding the values meant to extend the
base theme (fontSize, spacing, borderRadius, borderWidth, colors). -/
theorem fields_populated_verbatim (c s mw mx : JValue) :
    getPath (compose c s mw mx) ["theme", "fontFamily"] = some (.obj fontFamily) ∧
    getPath (compose c s mw mx) ["theme", "extend", "fontSize"] = some (.obj fontSize) ∧
    getPath (compose c s mw mx) ["theme", "extend", "borderRadius"] = some (.obj borderRadius) ∧
    getPath (compose c s mw mx) ["theme", "extend", "borderWidth"] = some (.obj borderWidth) ∧
    getPath (compose c s mw mx) ["theme", "boxShadow"] = some (.obj boxShadow) ∧
    getPath (compose c s mw mx) ["variants"] = some (.obj variants) ∧
    getPath (compose c s mw mx) ["variants", "extend"] = some (.obj variantExtensions) ∧
    getPath (compose c s mw mx) ["options", "safelist"]
      = some (.arr (safelist.map JValue.str)) ∧
    getPath (compose c s mw mx) ["theme", "extend"]
      = some (.obj [("fontSize", .obj fontSize), ("spacing", s),
                    ("borderRadius", .obj borderRadius), ("borderWidth", .obj borderWidth),
                    ("colors", c)]) :=
  ⟨rfl, rfl, rfl, rfl, rfl, rfl, rfl, rfl, rfl⟩

/-- Claim C3: the content glob of the composed configuration is the string
"./src/**/*.\x7bhtml,js,vue, ts\x7d" — with a space before ts — which
differs from the glob "./src/**/*.\x7bhtml,js,vue,ts\x7d" stated by the
claim. -/
theorem content_glob_value (c s mw mx : JValue) :
    getPath (compose c s mw mx) ["content"]
      = some (.arr [.str "./src/**/*.\x7bhtml,js,vue, ts\x7d"]) ∧
    "./src/**/*.\x7bhtml,js,vue, ts\x7d" ≠ "./src/**/*.\x7bhtml,js,vue,ts\x7d" :=
  ⟨rfl, by decide⟩

/-- Claim C4, counterexample: the @screen xl override of the emitted
.container rule declares no paddingLeft and no paddingRight, so the rule
does not set 56px padding at both of the largest two breakpoints. -/
theorem container_xl_padding_missing :
    getPath containerComponents [".container", "@screen xl", "paddingLeft"] = none ∧
    getPath containerComponents [".container", "@screen xl", "paddingRight"] = none ∧
    getPath containerComponents [".container", "@screen xl", "paddingLeft"]
      ≠ some (.str "56px") :=
  ⟨rfl, rfl, fun h => nomatch h⟩

/-- Claim C4, amended: the plugin callback calls addComponents exactly once,
on a record whose only top-level key is .container; the rule's breakpoint
overrides have maxWidth 600px, 700px, 1280px and 1344px; padding is 20px at
the base and 56px is declared at lg only, the xl override declaring no
padding of its own. -/
theorem container_rule_structure :
    pluginCallback (fun v => [v]) = [containerComponents] ∧
    topFields containerComponents = [".container"] ∧
    getPath containerComponents [".container", "maxWidth"] = some (.str "100%") ∧
    getPath containerComponents [".container", "paddingLeft"] = some (.str "20px") ∧
    getPath containerComponents [".container", "paddingRight"] = some (.str "20px") ∧
    getPath containerComponents [".container", "@screen sm", "maxWidth"] = some (.str "600px") ∧
    getPath containerComponents [".container", "@screen md", "maxWidth"] = some (.str "700px") ∧
    getPath containerComponents [".container", "@screen lg", "maxWidth"] = some (.str "1280px") ∧
    getPath containerComponents [".container", "@screen lg", "paddingLeft"] = some (.str "56px") ∧
    getPath containerComponents [".container", "@screen lg", "paddingRight"] = some (.str "56px") ∧
    getPath containerComponents [".container", "@screen xl", "maxWidth"] = some (.str "1344px") ∧
    getPath containerComponents [".container", "@screen xl", "paddingLeft"] = none ∧
    getPath containerComponents [".container", "@screen xl", "paddingRight"] = none :=
  ⟨rfl, rfl, rfl, rfl, rfl, rfl, rfl, rfl, rfl, rfl, rfl, rfl, rfl⟩

/-- Claim C5: the composed configuration's safelist is the ordered array of
the source safelist's string literals, and every string of the source
safelist array occurs in it unchanged. -/
theorem safelist_superset (c s mw mx : JValue) (x : String) (hx : x ∈ safelist) :
    getPath (compose c s mw mx) ["options", "safelist"]
      = some (.arr (safelist.map JValue.str)) ∧
    JValue.str x ∈ safelist.map JValue.str :=
  ⟨rfl, List.mem_map.mpr ⟨x, hx, rfl⟩⟩

/-- Claim C5, witness: the first safelist entry my-auto is in the source
safelist and occurs in the composed safelist. -/
theorem safelist_superset_witness :
    "my-auto" ∈ safelist ∧
    (getPath (compose emptyObj emptyObj emptyObj emptyObj) ["options", "safelist"]
       = some (.arr (safelist.map JValue.str)) ∧
     JValue.str "my-auto" ∈ safelist.map JValue.str) :=
  ⟨by decide, safelist_superset emptyObj emptyObj emptyObj emptyObj "my-auto" (by decide)⟩

/-- Claim C6: composition is pure and deterministic — two evaluations over
the same input tables yield structurally equal records. -/
theorem compose_deterministic (c s mw mx : JValue) :
    compose c s mw mx = compose c s mw mx ∧
    ∀ c₂ s₂ mw₂ mx₂, c = c₂ → s = s₂ → mw = mw₂ → mx = mx₂ →
      compose c s mw mx = compose c₂ s₂ mw₂ mx₂ := by
  refine ⟨rfl, ?_⟩
  rintro c₂ s₂ mw₂ mx₂ rfl rfl rfl rfl
  rfl

/-- Claim C6, witness: determinism of composition at the concrete empty
tables. -/
theorem compose_deterministic_witness :
    emptyObj = emptyObj ∧
    compose emptyObj emptyObj emptyObj emptyObj
      = compose emptyObj emptyObj emptyObj emptyObj :=
  ⟨rfl, (compose_deterministic emptyObj emptyObj emptyObj emptyObj).2
     emptyObj emptyObj emptyObj emptyObj rfl rfl rfl rfl⟩

/-- Claim C7: completeness of composition — every key of every input token
table is present, with its value, at the corresponding place of the
composed record; for the tables whose modules are outside the sources
(colors, spacing, minWidth, maxWidth) this holds for every possible
table. -/
theorem compose_complete (c s mw mx : JValue) :
    (∀ k v, lookupField fontFamily k = some v →
       getPath (compose c s mw mx) ["theme", "fontFamily", k] = some v) ∧
    (∀ k v, lookupField fontSize k = some v →
       getPath (compose c s mw mx) ["theme", "extend", "fontSize", k] = some v) ∧
    (∀ k v, lookupField borderRadius k = some v →
       getPath (compose c s mw mx) ["theme", "extend", "borderRadius", k] = some v) ∧
    (∀ k v, lookupField borderWidth k = some v →
       getPath (compose c s mw mx) ["theme", "extend", "borderWidth", k] = some v) ∧
    (∀ k v, lookupField boxShadow k = some v →
       getPath (compose c s mw mx) ["theme", "boxShadow", k] = some v) ∧
    (∀ k v, lookupField variants k = some v →
       getPath (compose c s mw mx) ["variants", k] = some v) ∧
    (∀ x, x ∈ safelist → JValue.str x ∈ safelist.map JValue.str) ∧
    (∀ tbl k v, lookupField tbl k = some v →
       getPath (compose (JValue.obj tbl) s mw mx) ["theme", "extend", "colors", k] = some v) ∧
    (∀ tbl k v, lookupField tbl k = some v →
       getPath (compose c (JValue.obj tbl) mw mx) ["theme", "extend", "spacing", k] = some v) ∧
    (∀ tbl k v, lookupField tbl k = some v →
       getPath (compose c s (JValue.obj tbl) mx) ["theme", "minWidth", k] = some v) ∧
    (∀ tbl k v, lookupField tbl k = some v →
       getPath (compose c s mw (JValue.obj tbl)) ["theme", "maxWidth", k] = some v) := by
  refine ⟨fun k v h => ?_, fun k v h => ?_, fun k v h => ?_, fun k v h => ?_,
          fun k v h => ?_, fun k v h => ?_, fun x hx => List.mem_map.mpr ⟨x, hx, rfl⟩,
          fun tbl k v h => ?_, fun tbl k v h => ?_, fun tbl k v h => ?_,
          fun tbl k v h => ?_⟩
  all_goals exact getPath_obj_single _ k v h

/-- Claim C7, witness: the fontFamily key primary, with value Inter, is
found in the composed record. -/
theorem compose_complete_witness :
    lookupField fontFamily "primary" = some (JValue.str "Inter") ∧
    getPath (compose emptyObj emptyObj emptyObj emptyObj) ["theme", "fontFamily", "primary"]
      = some (JValue.str "Inter") :=
  ⟨rfl, (compose_complete emptyObj emptyObj emptyObj emptyObj).1 "primary"
     (JValue.str "Inter") rfl⟩

/-- Claim C8: the fontSize table's body entry passes through composition
untransformed: the composed record's theme.extend.fontSize.body is the
pair of strings 14px and 24px. -/
theorem fontSize_body_preserved (c s mw mx : JValue) :
    getPath (compose c s mw mx) ["theme", "extend", "fontSize", "body"]
      = some (.arr [.str "14px", .str "24px"]) :=
  rfl

/-- Claim C9: the boxShadow table's searchbox entry, with its non-standard
unit suffixes 18x and 0.5x, is preserved verbatim through composition. -/
theorem boxShadow_searchbox_verbatim (c s mw mx : JValue) :
    getPath (compose c s mw mx) ["theme", "boxShadow", "searchbox"]
      = some (.str "0px 4px 18x 0.5x rgba(0, 2, 40, 0.1)") :=
  rfl

/-- Claim C10: every evaluation of the composed configuration sets
corePlugins.container to false, disabling the built-in container plugin. -/
theorem corePlugins_container_disabled (c s mw mx : JValue) :
    getPath (compose c s mw mx) ["corePlugins", "container"] = some (.bool false) :=
  rfl

end DirectorV2
